import Mathlib

/-!
Verification development for the structural quality-rule engine of this
repository.  Three checker instances are embedded, each from its source file:

* `QG`  — `codexer/scripts/quality-gate.py` (exact-grammar strategy over the
  Python `ast` module),
* `RC`  — `code-quality/scripts/review-checklist.py` (regex/approximate
  strategy for JS/TS),
* `DV`  — `documentation-authoring/scripts/doc-structure-validator.py`
  (markdown structure validator).

Python strings are modelled as `String`/`List Char` (ASCII character classes
for `\w`, `\s`, `str.lower`, as the inputs of interest are ASCII); Python
`None` as `Option`; issue lists are produced in the source's append order.
Recursive scanners that are not structurally recursive in the source are
given explicit fuel equal to the input length, which is always sufficient
(each step consumes at least one character and one unit of fuel).
-/

/-! ### Shared character/string helpers (Python semantics, ASCII model) -/

/-- ASCII model of Python `str.lower` on one character: shift `A`–`Z` (65–90)
up by 32, leave everything else unchanged. -/
def lowerCh (c : Char) : Char :=
  if 65 ≤ c.toNat ∧ c.toNat ≤ 90 then Char.ofNat (c.toNat + 32) else c

/-- ASCII model of Python `str.upper` on one character. -/
def upperCh (c : Char) : Char :=
  if 97 ≤ c.toNat ∧ c.toNat ≤ 122 then Char.ofNat (c.toNat - 32) else c

/-- The regex class `\s` = `[ \t\n\r\f\v]` (ASCII model; also Python
`str.strip`'s whitespace set). -/
def isPySpace (c : Char) : Bool :=
  c == ' ' || c == '\t' || c == '\n' || c == '\r' || c == '\x0b' || c == '\x0c'

/-- The regex class `\w` = `[a-zA-Z0-9_]` (ASCII model). -/
def isWordCh (c : Char) : Bool :=
  c.isAlpha || c.isDigit || c == '_'

/-- Python `s.startswith(p)`. -/
def pyStartsWith (s p : String) : Bool :=
  p.toList.isPrefixOf s.toList

/-- Python `s.strip()` on a character list. -/
def pyStripL (l : List Char) : List Char :=
  ((l.dropWhile isPySpace).reverse.dropWhile isPySpace).reverse

/-- Whether `pat` occurs as a contiguous subsequence of `l`
(Python `pat in s`). -/
def containsSeq (pat : List Char) : List Char → Bool
  | [] => pat.isEmpty
  | c :: rest => pat.isPrefixOf (c :: rest) || containsSeq pat rest

/-- Drop the exact literal `pat` from the front of `l`, if present. -/
def dropLit : List Char → List Char → Option (List Char)
  | [], l => some l
  | _ :: _, [] => none
  | p :: ps, c :: cs => if c == p then dropLit ps cs else none

/-- The decimal digit character for `n < 10`. -/
def digitChar10 (n : Nat) : Char :=
  if n = 0 then '0' else if n = 1 then '1' else if n = 2 then '2'
  else if n = 3 then '3' else if n = 4 then '4' else if n = 5 then '5'
  else if n = 6 then '6' else if n = 7 then '7' else if n = 8 then '8' else '9'

/-- Fuelled accumulator for `natToStr`; `fuel = n + 1` always suffices. -/
def natToStrAux : Nat → Nat → List Char → List Char
  | 0, _, acc => acc
  | fuel + 1, n, acc =>
    if n < 10 then digitChar10 n :: acc
    else natToStrAux fuel (n / 10) (digitChar10 (n % 10) :: acc)

/-- Decimal rendering of a natural number (Python `str(int)` for naturals),
kept structural so that concrete evaluations reduce in the kernel. -/
def natToStr (n : Nat) : String :=
  String.mk (natToStrAux (n + 1) n [])

/-! ### QG — `codexer/scripts/quality-gate.py` -/

namespace QG

/-- The `Issue` dataclass of quality-gate.py:
`file, line, category, message, severity` (severity defaults to "warning"
at each call site, written out explicitly here). -/
structure Issue where
  file : String
  line : Nat
  category : String
  message : String
  severity : String
deriving DecidableEq

/-- One formal parameter (`ast.arg`): its name and its annotation
(`None` ↦ `none`).  The source attribute named `annotation` is rendered
as `ann`. -/
structure Arg where
  arg : String
  ann : Option String
deriving DecidableEq

/-- The `ast.arguments` record attached to a function definition.  Only
`args` (plain positional parameters) is read by quality-gate.py; the other
fields exist on the Python object and are carried to show they are never
consulted. -/
structure Arguments where
  posonlyargs : List Arg
  args : List Arg
  vararg : Option Arg
  kwonlyargs : List Arg
  kwarg : Option Arg
deriving DecidableEq

/-- An `ast.FunctionDef`/`ast.AsyncFunctionDef` as quality-gate.py reads it:
name, inclusive line span (`end_lineno` is `getattr(..., None)`), parameter
record, return annotation, and `ast.get_docstring` result. -/
structure FunctionDef where
  name : String
  lineno : Nat
  end_lineno : Option Nat
  args : Arguments
  returns : Option String
  docstring : Option String
deriving DecidableEq

/-- An `ast.ClassDef` as quality-gate.py reads it. -/
structure ClassDef where
  name : String
  lineno : Nat
  docstring : Option String
deriving DecidableEq

/-- One target of an `ast.Assign`: an `ast.Name` (with its id) or any other
target expression (skipped by the source's `isinstance` guard). -/
inductive AssignTarget
  | name (id : String)
  | other
deriving DecidableEq

/-- An `ast.Assign` statement: its line and its targets. -/
structure Assign where
  lineno : Nat
  targets : List AssignTarget
deriving DecidableEq

/-- A node yielded by `ast.walk` that some check inspects. -/
inductive PyNode
  | func (f : FunctionDef)
  | cls (c : ClassDef)
  | assign (a : Assign)
deriving DecidableEq

/-- An `ast.Import` / `ast.ImportFrom` child node of the module
(`ast.iter_child_nodes` order): `imp` carries the dotted alias names,
`impFrom` the optional module and the relative-import level. -/
inductive ImportNode
  | imp (lineno : Nat) (names : List String)
  | impFrom (lineno : Nat) (module : Option String) (level : Nat)
deriving DecidableEq

/-- The structural model quality-gate.py extracts from one parsed file:
the module docstring, the `ast.walk` node stream (flattened, nested
definitions included), and the top-level import statements in file order. -/
structure PyModule where
  docstring : Option String
  nodes : List PyNode
  imports : List ImportNode
deriving DecidableEq

/-- Python truthiness test `not ast.get_docstring(node)`: true when the
docstring is absent or the empty string. -/
def docMissing : Option String → Bool
  | none => true
  | some s => s == ""

/-- `MAX_FUNCTION_LINES = 50`. -/
def MAX_FUNCTION_LINES : Nat := 50

/-- The `STDLIB_TOP_LEVEL` allow-list of quality-gate.py (a Python `set`;
modelled as a list, membership-only). -/
def STDLIB_TOP_LEVEL : List String := [
  "abc", "aifc", "argparse", "array", "ast", "asynchat", "asyncio",
  "asyncore", "atexit", "audioop", "base64", "bdb", "binascii",
  "binhex", "bisect", "builtins", "bz2", "calendar", "cgi", "cgitb",
  "chunk", "cmath", "cmd", "code", "codecs", "codeop", "collections",
  "colorsys", "compileall", "concurrent", "configparser", "contextlib",
  "contextvars", "copy", "copyreg", "cProfile", "crypt", "csv",
  "ctypes", "curses", "dataclasses", "datetime", "dbm", "decimal",
  "difflib", "dis", "distutils", "doctest", "email", "encodings",
  "enum", "errno", "faulthandler", "fcntl", "filecmp", "fileinput",
  "fnmatch", "formatter", "fractions", "ftplib", "functools", "gc",
  "getopt", "getpass", "gettext", "glob", "grp", "gzip", "hashlib",
  "heapq", "hmac", "html", "http", "idlelib", "imaplib", "imghdr",
  "imp", "importlib", "inspect", "io", "ipaddress", "itertools",
  "json", "keyword", "lib2to3", "linecache", "locale", "logging",
  "lzma", "mailbox", "mailcap", "marshal", "math", "mimetypes",
  "mmap", "modulefinder", "multiprocessing", "netrc", "nis", "nntplib",
  "numbers", "operator", "optparse", "os", "ossaudiodev", "parser",
  "pathlib", "pdb", "pickle", "pickletools", "pipes", "pkgutil",
  "platform", "plistlib", "poplib", "posix", "posixpath", "pprint",
  "profile", "pstats", "pty", "pwd", "py_compile", "pyclbr",
  "pydoc", "queue", "quopri", "random", "re", "readline", "reprlib",
  "resource", "rlcompleter", "runpy", "sched", "secrets", "select",
  "selectors", "shelve", "shlex", "shutil", "signal", "site",
  "smtpd", "smtplib", "sndhdr", "socket", "socketserver", "spwd",
  "sqlite3", "sre_compile", "sre_constants", "sre_parse", "ssl",
  "stat", "statistics", "string", "stringprep", "struct", "subprocess",
  "sunau", "symtable", "sys", "sysconfig", "syslog", "tabnanny",
  "tarfile", "telnetlib", "tempfile", "termios", "test", "textwrap",
  "threading", "time", "timeit", "tkinter", "token", "tokenize",
  "tomllib", "trace", "traceback", "tracemalloc", "tty", "turtle",
  "turtledemo", "types", "typing", "unicodedata", "unittest", "urllib",
  "uu", "uuid", "venv", "warnings", "wave", "weakref", "webbrowser",
  "winreg", "winsound", "wsgiref", "xdrlib", "xml", "xmlrpc",
  "zipapp", "zipfile", "zipimport", "zlib", "_thread"]

/-- `alias.name.split(".")[0]` — the top-level component of a dotted module
path. -/
def topOf (name : String) : String :=
  String.mk (name.toList.takeWhile fun c => !(c == '.'))

/-- `check_type_hints`, restricted to one walked function node: private
names (leading `_`, except `__init__`) are skipped; unannotated plain
positional parameters other than `self`/`cls` each yield an error issue;
a missing return annotation yields an error issue unless the function is
`__init__`. -/
def typeHintIssuesFor (filepath : String) (f : FunctionDef) : List Issue :=
  if pyStartsWith f.name "_" && !(f.name == "__init__") then []
  else
    ((f.args.args.filter fun a =>
        !(a.arg == "self") && !(a.arg == "cls") && a.ann.isNone).map
      fun a => ⟨filepath, f.lineno, "type-hints",
        "Parameter '" ++ a.arg ++ "' in '" ++ f.name ++ "' missing type hint",
        "error"⟩)
    ++ (if !(f.name == "__init__") && f.returns.isNone then
        [⟨filepath, f.lineno, "type-hints",
          "Function '" ++ f.name ++ "' missing return type annotation",
          "error"⟩]
      else [])

/-- `check_type_hints` over the walked node stream. -/
def checkTypeHints (filepath : String) (m : PyModule) : List Issue :=
  m.nodes.flatMap fun n =>
    match n with
    | .func f => typeHintIssuesFor filepath f
    | _ => []

/-- The per-node body of `check_docstrings`: classes are checked
unconditionally; functions are skipped when private (leading `_`, except
`__init__`); both yield a warning when the docstring is missing. -/
def docstringIssuesFor (filepath : String) : PyNode → List Issue
  | .cls c =>
      if docMissing c.docstring then
        [⟨filepath, c.lineno, "docstrings",
          "Class '" ++ c.name ++ "' missing docstring", "warning"⟩]
      else []
  | .func f =>
      if pyStartsWith f.name "_" && !(f.name == "__init__") then []
      else if docMissing f.docstring then
        [⟨filepath, f.lineno, "docstrings",
          "Function '" ++ f.name ++ "' missing docstring", "warning"⟩]
      else []
  | .assign _ => []

/-- `check_docstrings`: the module-docstring warning, then the per-node
checks over the walked node stream. -/
def checkDocstrings (filepath : String) (m : PyModule) : List Issue :=
  (if docMissing m.docstring then
    [⟨filepath, 1, "docstrings", "Module missing docstring", "warning"⟩]
  else [])
  ++ m.nodes.flatMap (docstringIssuesFor filepath)

/-- An import record `(lineno, group, name)` as accumulated by
`check_import_organization`. -/
structure ImportRecord where
  lineno : Nat
  group : String
  modname : String
deriving DecidableEq

/-- The record(s) contributed by one top-level import statement:
`ast.Import` classifies each alias by the allow-list; `ast.ImportFrom`
with `module is None` is skipped, a positive `level` forces "local",
otherwise the allow-list decides. -/
def recordsOf : ImportNode → List ImportRecord
  | .imp lineno names =>
      names.map fun nm =>
        ⟨lineno,
          if STDLIB_TOP_LEVEL.contains (topOf nm) then "stdlib" else "third-party",
          nm⟩
  | .impFrom lineno module level =>
      match module with
      | none => []
      | some m =>
          [⟨lineno,
            if level > 0 then "local"
            else if STDLIB_TOP_LEVEL.contains (topOf m) then "stdlib"
            else "third-party",
            m⟩]

/-- All import records of a module, in file order. -/
def importRecords (nodes : List ImportNode) : List ImportRecord :=
  nodes.flatMap recordsOf

/-- The `group_order` mapping `{"stdlib": 0, "third-party": 1, "local": 2}`
(a lookup on any other key would raise `KeyError` in the source; records
only ever carry these three groups, so the final default is unreachable). -/
def groupRank (g : String) : Int :=
  if g == "stdlib" then 0
  else if g == "third-party" then 1
  else if g == "local" then 2
  else 0

/-- The scan loop of `check_import_organization`: `prev` is
`prev_group_rank` (initially `-1`); a record whose rank is below `prev`
is flagged, and `prev` is then unconditionally set to the record's rank. -/
def importScanAux (filepath : String) (prev : Int) :
    List ImportRecord → List Issue
  | [] => []
  | r :: rest =>
      (if groupRank r.group < prev then
        [⟨filepath, r.lineno, "imports",
          "Import '" ++ r.modname ++ "' (" ++ r.group ++
            ") appears after a later group; expected order: stdlib → third-party → local",
          "warning"⟩]
      else [])
      ++ importScanAux filepath (groupRank r.group) rest

/-- `check_import_organization` over the records of the module's
top-level import statements (early return on an import-free module). -/
def checkImportOrganization (filepath : String) (m : PyModule) : List Issue :=
  let recs := importRecords m.imports
  if recs.isEmpty then [] else importScanAux filepath (-1) recs

/-- `check_function_length`, restricted to one walked function node:
functions without `end_lineno` are skipped; a span strictly above
`MAX_FUNCTION_LINES` yields one error issue. -/
def functionLengthIssuesFor (filepath : String) (f : FunctionDef) : List Issue :=
  match f.end_lineno with
  | none => []
  | some e =>
      let len := e - f.lineno + 1
      if len > MAX_FUNCTION_LINES then
        [⟨filepath, f.lineno, "function-length",
          "Function '" ++ f.name ++ "' is " ++ natToStr len ++
            " lines (max " ++ natToStr MAX_FUNCTION_LINES ++ ")",
          "error"⟩]
      else []

/-- `check_function_length` over the walked node stream. -/
def checkFunctionLength (filepath : String) (m : PyModule) : List Issue :=
  m.nodes.flatMap fun n =>
    match n with
    | .func f => functionLengthIssuesFor filepath f
    | _ => []

/-- `keyword.kwlist` of Python 3 (hard keywords). -/
def kwlist : List String :=
  ["False", "None", "True", "and", "as", "assert", "async", "await",
   "break", "class", "continue", "def", "del", "elif", "else", "except",
   "finally", "for", "from", "global", "if", "import", "in", "is",
   "lambda", "nonlocal", "not", "or", "pass", "raise", "return", "try",
   "while", "with", "yield"]

/-- `keyword.iskeyword`. -/
def isKeyword (s : String) : Bool := kwlist.contains s

/-- `SNAKE_CASE = ^_{0,2}[a-z][a-z0-9_]*_{0,2}$`, as a total matcher: at
most two leading underscores, then a lowercase letter, then characters in
`[a-z0-9_]` (the trailing `_{0,2}` is subsumed by the middle class, and
leading runs of three or more underscores can never backtrack into a
match because the character after the consumed underscores would itself
be `_`, not `[a-z]`). -/
def snakeMatch (s : String) : Bool :=
  let cs := s.toList
  let us := cs.takeWhile fun c => c == '_'
  decide (us.length ≤ 2) &&
    match cs.drop us.length with
    | [] => false
    | c :: t => c.isLower && t.all fun d => d.isLower || d.isDigit || d == '_'

/-- `UPPER_SNAKE = ^[A-Z][A-Z0-9_]*$`. -/
def upperSnakeMatch (s : String) : Bool :=
  match s.toList with
  | [] => false
  | c :: t => c.isUpper && t.all fun d => d.isUpper || d.isDigit || d == '_'

/-- `PASCAL_CASE = ^_?[A-Z][a-zA-Z0-9]*$` (the optional underscore must be
consumed when present, since `_` is not in `[A-Z]`). -/
def pascalMatch (s : String) : Bool :=
  let core := fun (l : List Char) =>
    match l with
    | [] => false
    | c :: t => c.isUpper && t.all fun d => d.isAlpha || d.isDigit
  match s.toList with
  | '_' :: rest => core rest
  | rest => core rest

/-- `check_naming` over the walked node stream: classes against
`PASCAL_CASE`, functions against `SNAKE_CASE`, and each `ast.Name`
assignment target against `SNAKE_CASE` with keywords and `UPPER_SNAKE`
module constants exempted. -/
def checkNaming (filepath : String) (m : PyModule) : List Issue :=
  m.nodes.flatMap fun n =>
    match n with
    | .cls c =>
        if pascalMatch c.name then []
        else [⟨filepath, c.lineno, "naming",
          "Class '" ++ c.name ++ "' should use PascalCase", "warning"⟩]
    | .func f =>
        if snakeMatch f.name then []
        else [⟨filepath, f.lineno, "naming",
          "Function '" ++ f.name ++ "' should use snake_case", "warning"⟩]
    | .assign a =>
        a.targets.flatMap fun t =>
          match t with
          | .other => []
          | .name id =>
              if isKeyword id then []
              else if upperSnakeMatch id then []
              else if snakeMatch id then []
              else [⟨filepath, a.lineno, "naming",
                "Variable '" ++ id ++ "' should use snake_case", "warning"⟩]

/-- The outcome of reading and `ast.parse`-ing one file, as `analyze_file`
branches on it: an unreadable file, a `SyntaxError` (with its resolved
line `exc.lineno or 0`), or a parsed module. -/
inductive ParseResult
  | readFailure (msg : String)
  | syntaxFailure (lineno : Nat) (msg : String)
  | ok (tree : PyModule)
deriving DecidableEq

/-- `analyze_file`: both failure branches append a single `parse` error
issue and `return` — no check runs; on success the five checks run in
source order (the `files_checked` counter is elided). -/
def analyze_file (filepath : String) (res : ParseResult) : List Issue :=
  match res with
  | .readFailure m =>
      [⟨filepath, 0, "parse", "Cannot read file: " ++ m, "error"⟩]
  | .syntaxFailure l m =>
      [⟨filepath, l, "parse", "Syntax error: " ++ m, "error"⟩]
  | .ok tree =>
      checkTypeHints filepath tree
      ++ checkDocstrings filepath tree
      ++ checkImportOrganization filepath tree
      ++ checkFunctionLength filepath tree
      ++ checkNaming filepath tree

/-- `Report.passed`: no collected issue has severity `"error"`. -/
def passed (issues : List Issue) : Bool :=
  !(issues.any fun i => i.severity == "error")

/-- The coarse per-report verdict vocabulary of the specification. -/
inductive Verdict
  | PASSED
  | PASSED_WITH_WARNINGS
  | FAILED
deriving DecidableEq

/-- The status `format_report` renders: `ALL CHECKS PASSED` on an empty
issue list, otherwise `FAILED` when `passed` is false and
`PASSED (with warnings)` when it is true — mapped onto the spec's verdict
vocabulary. -/
def verdict (issues : List Issue) : Verdict :=
  if issues.isEmpty then .PASSED
  else if passed issues then .PASSED_WITH_WARNINGS
  else .FAILED

/-- `main`'s final `sys.exit(0 if report.passed else 1)`. -/
def finalExit (issues : List Issue) : Nat :=
  if passed issues then 0 else 1

/-- The exit code of `main` as a function of its three decision points:
missing argument → 2, no Python files found → 2, otherwise the
`passed`-based code. -/
def mainExitCode (argGiven : Bool) (filesFound : Nat) (issues : List Issue) :
    Nat :=
  if !argGiven then 2
  else if filesFound = 0 then 2
  else finalExit issues

end QG

/-! ### RC — `code-quality/scripts/review-checklist.py` -/

namespace RC

/-- The `Issue` dataclass of review-checklist.py:
`rule, severity, line, message`. -/
structure Issue where
  rule : String
  severity : String
  line : Nat
  message : String
deriving DecidableEq

/-- The content part of the string-literal regex
`(["'])(?:(?!\1|\\).|\\.)*\1` (and of the template regex
`` `(?:[^`\\]|\\.)*` ``): starting right after an opening quote `q`,
return the number of characters consumed through the first closing `q`,
where a backslash always consumes the following character; `none` when
the literal never closes (the regex then fails at that start position). -/
def findClose (q : Char) : List Char → Option Nat
  | [] => none
  | c :: rest =>
      if c == q then some 1
      else if c == '\\' then
        match rest with
        | [] => none
        | _ :: r => (findClose q r).map (· + 2)
      else (findClose q rest).map (· + 1)

/-- Fuelled body of `stripPass`; `fuel` = input length always suffices
(every step consumes at least one character). Mirrors `re.sub`'s
left-to-right, non-overlapping scan: at a quote character accepted by
`isQ`, a closing match replaces the whole literal by `""`; an
unterminated literal leaves the quote in place and the scan moves on. -/
def stripPassAux (isQ : Char → Bool) : Nat → List Char → List Char
  | 0, l => l
  | _ + 1, [] => []
  | fuel + 1, c :: rest =>
      if isQ c then
        match findClose c rest with
        | some k => '"' :: '"' :: stripPassAux isQ fuel (rest.drop k)
        | none => c :: stripPassAux isQ fuel rest
      else c :: stripPassAux isQ fuel rest

/-- One `re.sub(..., '""', line)` pass over a line, for the quote
characters accepted by `isQ`. -/
def stripPass (isQ : Char → Bool) (l : List Char) : List Char :=
  stripPassAux isQ l.length l

/-- The alternation `(["'])` of the string-literal regex. -/
def isQuoteCh (c : Char) : Bool := c == '"' || c == '\''

/-- The backtick of the template-literal regex. -/
def isBacktickCh (c : Char) : Bool := c == '`'

/-- `re.sub(r"//.*$", "", line)`: drop everything from the first `//`. -/
def stripLineComment : List Char → List Char
  | [] => []
  | '/' :: '/' :: _ => []
  | c :: rest => c :: stripLineComment rest

/-- `strip_comments_and_strings`: quoted string literals, then
template-like backtick spans, then the single-line comment. -/
def stripLine (l : List Char) : List Char :=
  stripLineComment (stripPass isBacktickCh (stripPass isQuoteCh l))

/-- Word-boundary test for the position following character `prev`
(`none` = start of line). -/
def boundaryAfter : Option Char → Bool
  | none => true
  | some p => !(isWordCh p)

/-- Does `CONSOLE_LOG_PATTERN =
\bconsole\.(log|debug|info|warn|error|trace)\s*\(` match starting exactly
at the head of `l` (the preceding boundary is checked by the caller)? -/
def consoleMatchAt (l : List Char) : Bool :=
  match dropLit "console.".toList l with
  | none => false
  | some r =>
      ["log", "debug", "info", "warn", "error", "trace"].any fun kw =>
        match dropLit kw.toList r with
        | none => false
        | some r2 =>
            match r2.dropWhile isPySpace with
            | '(' :: _ => true
            | _ => false

/-- `re.search` of `CONSOLE_LOG_PATTERN`: try every position whose
preceding character is a word boundary. -/
def consoleSearchAux : Option Char → List Char → Bool
  | _, [] => false
  | prev, c :: rest =>
      (boundaryAfter prev && consoleMatchAt (c :: rest))
      || consoleSearchAux (some c) rest

/-- Whether the debug-call pattern matches anywhere in the line. -/
def consoleSearch (l : List Char) : Bool :=
  consoleSearchAux none l

/-- `"/*" in raw_line and "*/" not in raw_line` — the line opens a block
comment that the per-line loop then skips. -/
def lineStartsBlock (raw : List Char) : Bool :=
  containsSeq "/*".toList raw && !(containsSeq "*/".toList raw)

/-- Whether the console-log rule fires for one raw line of `check_file`'s
per-line loop: lines opening an unterminated block comment and lines
inside a block comment are skipped (`continue`); otherwise the pattern is
searched in the stripped line. -/
def consoleLogFires (inBlock : Bool) (raw : List Char) : Bool :=
  if lineStartsBlock raw then false
  else if inBlock then false
  else consoleSearch (stripLine raw)

/-- The four marker words of `TODO_PATTERN = \b(TODO|FIXME|HACK|XXX)\b`
(alternation order; the set is prefix-free, so order is immaterial). -/
def markerWords : List (List Char) :=
  ["TODO".toList, "FIXME".toList, "HACK".toList, "XXX".toList]

/-- Case-insensitive literal match of `pat` at the head of `l`, returning
the matched source characters and the remainder. -/
def dropLitCI : List Char → List Char → Option (List Char × List Char)
  | [], l => some ([], l)
  | _ :: _, [] => none
  | p :: ps, c :: cs =>
      if lowerCh c == lowerCh p then
        (dropLitCI ps cs).map fun pr => (c :: pr.1, pr.2)
      else none

/-- Try one marker word at the head of `l`, demanding the trailing word
boundary (end of line counts as a boundary). -/
def markerTryWord (w : List Char) (l : List Char) :
    Option (List Char × List Char) :=
  match dropLitCI w l with
  | some (m, r) => if !(isWordCh (r.headD ' ')) then some (m, r) else none
  | none => none

/-- The match of `TODO_PATTERN` starting exactly at the head of `l`:
the first of the marker words that matches case-insensitively and is
followed by a word boundary. -/
def markerMatchAt (l : List Char) : Option (List Char × List Char) :=
  markerWords.foldr (fun w acc => (markerTryWord w l).orElse fun _ => acc) none

/-- Fuelled body of `markerTags` (`re.findall` of `TODO_PATTERN`):
left-to-right, non-overlapping, with a word boundary before each match;
`fuel` = input length suffices. -/
def markerTagsAux : Nat → Option Char → List Char → List (List Char)
  | 0, _, _ => []
  | _ + 1, _, [] => []
  | fuel + 1, prev, c :: rest =>
      if boundaryAfter prev then
        match markerMatchAt (c :: rest) with
        | some (m, r) =>
            m :: markerTagsAux fuel (some (m.getLastD ' ')) r
        | none => markerTagsAux fuel (some c) rest
      else markerTagsAux fuel (some c) rest

/-- `TODO_PATTERN.findall(raw_line)`: the list of matched marker tags, as
they appear in the source text. -/
def markerTags (raw : List Char) : List (List Char) :=
  markerTagsAux raw.length none raw

/-- The todo-fixme issues of one raw line of `check_file`'s per-line loop
(line number `i`): note the source scans `raw_line`, not the stripped
line. -/
def todoIssuesLine (i : Nat) (raw : String) : List Issue :=
  (markerTags raw.toList).map fun t =>
    ⟨"todo-fixme", "info", i, "Found " ++ String.mk (t.map upperCh) ++ " comment"⟩

/-- The file-length rule of `check_file`: a warning at line 1 when the
file has more than 300 lines. -/
def fileLengthIssues (totalLines : Nat) : List Issue :=
  if totalLines > 300 then
    [⟨"file-length", "warning", 1,
      "File has " ++ natToStr totalLines ++ " lines (threshold: 300)"⟩]
  else []

/-- The long-function rule of `check_file` over the spans found by
`find_function_spans` (name, 1-based start line, 1-based end line): a
warning when `end - start + 1 > 50`. -/
def longFunctionIssues (functions : List (String × Nat × Nat)) : List Issue :=
  functions.flatMap fun f =>
    let len := f.2.2 - f.2.1 + 1
    if len > 50 then
      [⟨"long-function", "warning", f.2.1,
        "Function '" ++ f.1 ++ "' is " ++ natToStr len ++ " lines (threshold: 50)"⟩]
    else []

/-- A line of the shape `x = "<content>";` — a double-quoted string
literal with the given content in otherwise fixed surroundings, used to
state properties of tokens that occur only inside a string literal. -/
def strLitLine (content : List Char) : List Char :=
  "x = ".toList ++ '"' :: (content ++ ['"', ';'])

/-- `main`'s exit: `sys.exit(1 if warning_count > 0 else 0)` where
`warning_count` counts issues of severity `"warning"` — error- and
info-severity issues are not consulted. -/
def finalExit (issues : List Issue) : Nat :=
  if 0 < issues.countP (fun i => i.severity == "warning") then 1 else 0

/-- The exit code of one invocation as a function of its decision points:
missing argument → `sys.exit(1)` in `main`; missing input file →
`sys.exit(1)` in `check_file`; otherwise the warning-count based code. -/
def mainExitCode (argGiven fileExists : Bool) (issues : List Issue) : Nat :=
  if !argGiven then 1
  else if !fileExists then 1
  else finalExit issues

end RC

/-! ### DV — `documentation-authoring/scripts/doc-structure-validator.py` -/

namespace DV

/-- The `Issue` dataclass of doc-structure-validator.py:
`line, severity, category, message`. -/
structure Issue where
  line : Nat
  severity : String
  category : String
  message : String
deriving DecidableEq

/-- `collapseWsAux prevSpace l`: replace every maximal run of `\s`
characters by a single `-`; `prevSpace` records whether the previous
character belonged to a run already replaced. -/
def collapseWsAux : Bool → List Char → List Char
  | _, [] => []
  | prevSpace, c :: rest =>
      if isPySpace c then
        (if prevSpace then [] else ['-']) ++ collapseWsAux true rest
      else c :: collapseWsAux false rest

/-- `slugify_heading`: `text.strip().lower()`, then
`re.sub(r"[^\w\s-]", "", ·)` (keep word chars, whitespace, hyphens), then
`re.sub(r"[\s]+", "-", ·)` (collapse whitespace runs to single hyphens). -/
def slugify (l : List Char) : List Char :=
  collapseWsAux false
    (((pyStripL l).map lowerCh).filter fun c =>
      isWordCh c || isPySpace c || c == '-')

/-- An internal-link record as `parse_document` collects it: its line and
its `href` (the link text is not consulted by `validate_internal_links`). -/
structure Link where
  line : Nat
  href : List Char
deriving DecidableEq

/-- The per-link body of `validate_internal_links`: only hrefs starting
with `#` are checked; the target is the lower-cased remainder and is
flagged as a broken link when it is in neither the heading-slug set nor
the anchor set. -/
def linkIssue (slugs : List (List Char)) (lk : Link) : List Issue :=
  if "#".toList.isPrefixOf lk.href then
    let target := (lk.href.drop 1).map lowerCh
    if target ∈ slugs then []
    else
      [⟨lk.line, "error", "broken-link",
        "Internal link '#" ++ String.mk target ++
          "' does not match any heading or anchor."⟩]
  else []

/-- `validate_internal_links`: the known-slug set is the slugified heading
texts plus the lower-cased declared `<a name=...>`/`<a id=...>` anchor
ids (the Python `set` is modelled as a list, membership-only). -/
def validateInternalLinks (headings : List (List Char))
    (anchors : List (List Char)) (links : List Link) : List Issue :=
  let slugs := headings.map slugify ++ anchors.map (List.map lowerCh)
  links.flatMap (linkIssue slugs)

/-- A code-block record of `parse_document`: start/end line, language tag
(`stop` renders the source's `"end"` key), and the `unclosed` flag (absent
in the source for closed blocks, read back with a falsy default). -/
structure CodeBlock where
  start : Nat
  stop : Nat
  lang : String
  unclosed : Bool := false
deriving DecidableEq

/-- The language tag captured at a fence opener:
`stripped[3:].strip().split()[0] if len(stripped) > 3 else ""` (for a
stripped line of length > 3 the split is never empty, so taking the first
whitespace-delimited token is exact). -/
def fenceLang (stripped : List Char) : String :=
  if stripped.length > 3 then
    String.mk (((stripped.drop 3).dropWhile isPySpace).takeWhile
      fun c => !(isPySpace c))
  else ""

/-- The code-block projection of `parse_document`'s per-line loop:
a stripped line starting with three backticks toggles the fence state;
closing emits the block, and end-of-input in the open state emits the
block as unclosed with `end = len(lines)`.  `i` is the 1-based number of
the next line, so at end-of-input `len(lines) = i - 1`. -/
def parseCodeBlocksAux :
    Bool → Nat → String → Nat → List String → List CodeBlock
  | inBlock, bStart, bLang, i, [] =>
      if inBlock then [⟨bStart, i - 1, bLang, true⟩] else []
  | inBlock, bStart, bLang, i, line :: rest =>
      let stripped := pyStripL line.toList
      if "```".toList.isPrefixOf stripped then
        if !inBlock then
          parseCodeBlocksAux true i (fenceLang stripped) (i + 1) rest
        else
          ⟨bStart, i, bLang, false⟩ :: parseCodeBlocksAux false 0 "" (i + 1) rest
      else
        parseCodeBlocksAux inBlock bStart bLang (i + 1) rest

/-- The `code_blocks` list `parse_document` returns for a document. -/
def parseCodeBlocks (lines : List String) : List CodeBlock :=
  parseCodeBlocksAux false 0 "" 1 lines

/-- `validate_code_blocks`: an unclosed block yields an error at its
opening fence line; a closed block with an empty language tag yields a
warning. -/
def validateCodeBlocks (cbs : List CodeBlock) : List Issue :=
  cbs.flatMap fun cb =>
    if cb.unclosed then
      [⟨cb.start, "error", "code-block",
        "Unclosed code block (missing closing ```)."⟩]
    else if cb.lang == "" then
      [⟨cb.start, "warning", "code-block",
        "Code block missing language tag (e.g., ```python)."⟩]
    else []

/-- How `main` resolved its `path` argument: a directory (with the
`--recursive` flag and the number of `.md` files found), an existing
file, or a missing path. -/
inductive Target
  | dir (recursive : Bool) (mdFiles : Nat)
  | file
  | missing
deriving DecidableEq

/-- The exit code reached after all reports are produced:
`sys.exit(1)` when total errors are positive, `sys.exit(1)` when
`--fail-on-warnings` is set and total warnings are positive, otherwise
the process falls off `main` and exits 0. -/
def finalExit (totalErrors totalWarnings : Nat) (failOnWarnings : Bool) :
    Nat :=
  if 0 < totalErrors then 1
  else if failOnWarnings && 0 < totalWarnings then 1
  else 0

/-- The exit code of one invocation as a function of its decision points:
a directory without `--recursive`, a recursive directory with no `.md`
files, and a missing path all `sys.exit(1)`; otherwise validation runs
and `finalExit` decides. -/
def mainExitCode (target : Target) (failOnWarnings : Bool)
    (totalErrors totalWarnings : Nat) : Nat :=
  match target with
  | .dir false _ => 1
  | .dir true 0 => 1
  | .dir true (_ + 1) => finalExit totalErrors totalWarnings failOnWarnings
  | .file => finalExit totalErrors totalWarnings failOnWarnings
  | .missing => 1

end DV

namespace QG

/-- Helper for stating the import-ordering behaviour actually implemented:
the lines of records whose rank is below the rank of the *immediately
preceding* record. -/
def descentLines : List ImportRecord → List Nat
  | [] => []
  | [_] => []
  | r1 :: r2 :: rest =>
      (if groupRank r2.group < groupRank r1.group then [r2.lineno] else [])
      ++ descentLines (r2 :: rest)

/-- Follows the claim's words, for comparison with the source behaviour:
the lines of records whose rank is below the *highest rank already seen*
among earlier records in file order (no earlier import ⇒ never flagged,
rendered by the `-1` start value). -/
def maxSeenFlagsAux (maxSeen : Int) : List ImportRecord → List Nat
  | [] => []
  | r :: rest =>
      (if groupRank r.group < maxSeen then [r.lineno] else [])
      ++ maxSeenFlagsAux (max maxSeen (groupRank r.group)) rest

/-- The issue lines the claim's rule predicts for a record sequence. -/
def claimFlagLines (recs : List ImportRecord) : List Nat :=
  maxSeenFlagsAux (-1) recs

end QG

/-! ## Helper lemmas -/

theorem toNat_lowerCh_of (c : Char) (h : 65 ≤ c.toNat ∧ c.toNat ≤ 90) :
    (lowerCh c).toNat = c.toNat + 32 := by
  simp only [lowerCh, if_pos h]
  have hv : (c.toNat + 32).isValidChar := by
    unfold Nat.isValidChar
    omega
  simp [Char.ofNat, hv]
  rfl

theorem lowerCh_of_not (c : Char) (h : ¬(65 ≤ c.toNat ∧ c.toNat ≤ 90)) :
    lowerCh c = c := by
  simp only [lowerCh, if_neg h]

theorem lowerCh_idem (c : Char) : lowerCh (lowerCh c) = lowerCh c := by
  by_cases h : 65 ≤ c.toNat ∧ c.toNat ≤ 90
  · apply lowerCh_of_not
    have := toNat_lowerCh_of c h
    omega
  · rw [lowerCh_of_not c h, lowerCh_of_not c h]

theorem map_id_of_mem (l : List Char) (f : Char → Char)
    (h : ∀ c ∈ l, f c = c) : l.map f = l := by
  induction l with
  | nil => rfl
  | cons c cs ih =>
      simp only [List.map_cons, h c (by simp),
        ih fun d hd => h d (by simp [hd])]

theorem mem_collapseWsAux (c : Char) :
    ∀ (l : List Char) (b : Bool), c ∈ DV.collapseWsAux b l → c = '-' ∨ c ∈ l := by
  intro l
  induction l with
  | nil => intro b h; simp [DV.collapseWsAux] at h
  | cons d ds ih =>
      intro b h
      simp only [DV.collapseWsAux] at h
      by_cases hd : isPySpace d = true
      · rw [if_pos hd] at h
        rcases List.mem_append.mp h with h1 | h1
        · cases b with
          | true => simp at h1
          | false =>
              left
              simpa using h1
        · rcases ih true h1 with h2 | h2
          · exact Or.inl h2
          · exact Or.inr (by simp [h2])
      · rw [if_neg hd] at h
        rcases List.mem_cons.mp h with h1 | h1
        · exact Or.inr (by simp [h1])
        · rcases ih false h1 with h2 | h2
          · exact Or.inl h2
          · exact Or.inr (by simp [h2])

theorem mem_slugify_fixed (l : List Char) (c : Char) (hc : c ∈ DV.slugify l) :
    lowerCh c = c := by
  unfold DV.slugify at hc
  rcases mem_collapseWsAux c _ false hc with rfl | hm
  · decide
  · rcases (List.mem_filter.mp hm).1 |> List.mem_map.mp with ⟨d, -, rfl⟩
    exact lowerCh_idem d

theorem map_lowerCh_slugify (l : List Char) :
    (DV.slugify l).map lowerCh = DV.slugify l :=
  map_id_of_mem _ _ fun c hc => mem_slugify_fixed l c hc

theorem groupRank_nonneg (g : String) : 0 ≤ QG.groupRank g := by
  unfold QG.groupRank
  split_ifs <;> decide

theorem importScanAux_map_line (fp : String) :
    ∀ (rest : List QG.ImportRecord) (r : QG.ImportRecord),
    (QG.importScanAux fp (QG.groupRank r.group) rest).map QG.Issue.line =
      QG.descentLines (r :: rest) := by
  intro rest
  induction rest with
  | nil => intro r; rfl
  | cons r2 rest ih =>
      intro r
      simp only [QG.importScanAux, QG.descentLines, List.map_append,
        apply_ite (List.map QG.Issue.line), List.map_cons, List.map_nil,
        ih r2]

theorem sevTypeHints (fp : String) (f : QG.FunctionDef) (i : QG.Issue)
    (h : i ∈ QG.typeHintIssuesFor fp f) : i.severity = "error" := by
  unfold QG.typeHintIssuesFor at h
  split at h
  · simp at h
  · rcases List.mem_append.mp h with h | h
    · rcases List.mem_map.mp h with ⟨a, -, rfl⟩
      rfl
    · split at h
      · rcases List.mem_singleton.mp h with rfl
        rfl
      · simp at h

theorem sevDocstrings (fp : String) (n : QG.PyNode) (i : QG.Issue)
    (h : i ∈ QG.docstringIssuesFor fp n) : i.severity = "warning" := by
  cases n with
  | cls c =>
      simp only [QG.docstringIssuesFor] at h
      split at h
      · rcases List.mem_singleton.mp h with rfl
        rfl
      · simp at h
  | func f =>
      simp only [QG.docstringIssuesFor] at h
      split at h
      · simp at h
      · split at h
        · rcases List.mem_singleton.mp h with rfl
          rfl
        · simp at h
  | assign a => simp [QG.docstringIssuesFor] at h

theorem sevImportScan (fp : String) (i : QG.Issue) :
    ∀ (recs : List QG.ImportRecord) (prev : Int),
    i ∈ QG.importScanAux fp prev recs → i.severity = "warning" := by
  intro recs
  induction recs with
  | nil => intro prev h; simp [QG.importScanAux] at h
  | cons r rest ih =>
      intro prev h
      unfold QG.importScanAux at h
      rcases List.mem_append.mp h with h | h
      · split at h
        · rcases List.mem_singleton.mp h with rfl
          rfl
        · simp at h
      · exact ih _ h

theorem sevFunctionLength (fp : String) (f : QG.FunctionDef) (i : QG.Issue)
    (h : i ∈ QG.functionLengthIssuesFor fp f) : i.severity = "error" := by
  unfold QG.functionLengthIssuesFor at h
  cases he : f.end_lineno with
  | none => rw [he] at h; simp at h
  | some e =>
      rw [he] at h
      simp only [] at h
      split at h
      · rcases List.mem_singleton.mp h with rfl
        rfl
      · simp at h

theorem sevNaming (fp : String) (m : QG.PyModule) (i : QG.Issue)
    (h : i ∈ QG.checkNaming fp m) : i.severity = "warning" := by
  unfold QG.checkNaming at h
  rcases List.mem_flatMap.mp h with ⟨n, -, hn⟩
  cases n with
  | cls c =>
      simp only [] at hn
      split at hn
      · simp at hn
      · rcases List.mem_singleton.mp hn with rfl
        rfl
  | func f =>
      simp only [] at hn
      split at hn
      · simp at hn
      · rcases List.mem_singleton.mp hn with rfl
        rfl
  | assign a =>
      simp only [] at hn
      rcases List.mem_flatMap.mp hn with ⟨t, -, ht⟩
      cases t with
      | other => simp at ht
      | name id =>
          simp only [] at ht
          split at ht
          · simp at ht
          · split at ht
            · simp at ht
            · split at ht
              · simp at ht
              · rcases List.mem_singleton.mp ht with rfl
                rfl

theorem qg_severity_inventory (fp : String) (res : QG.ParseResult) :
    ∀ i ∈ QG.analyze_file fp res,
      i.severity = "warning" ∨ i.severity = "error" := by
  intro i hi
  cases res with
  | readFailure m =>
      rcases List.mem_singleton.mp hi with rfl
      right; rfl
  | syntaxFailure l m =>
      rcases List.mem_singleton.mp hi with rfl
      right; rfl
  | ok tree =>
      simp only [QG.analyze_file, List.mem_append] at hi
      rcases hi with ((((h | h) | h) | h) | h)
      · rcases List.mem_flatMap.mp h with ⟨n, -, hn⟩
        cases n with
        | func f => exact Or.inr (sevTypeHints fp f i hn)
        | cls c => simp at hn
        | assign a => simp at hn
      · unfold QG.checkDocstrings at h
        rcases List.mem_append.mp h with h | h
        · split at h
          · rcases List.mem_singleton.mp h with rfl
            left; rfl
          · simp at h
        · rcases List.mem_flatMap.mp h with ⟨n, -, hn⟩
          exact Or.inl (sevDocstrings fp n i hn)
      · simp only [QG.checkImportOrganization] at h
        split at h
        · simp at h
        · exact Or.inl (sevImportScan fp i _ _ h)
      · rcases List.mem_flatMap.mp h with ⟨n, -, hn⟩
        cases n with
        | func f => exact Or.inr (sevFunctionLength fp f i hn)
        | cls c => simp at hn
        | assign a => simp at hn
      · exact Or.inl (sevNaming fp tree i h)

theorem qg_passed_iff_error (issues : List QG.Issue) :
    QG.passed issues = false ↔ ∃ i ∈ issues, i.severity = "error" := by
  simp [QG.passed, List.any_eq_true]

theorem qg_verdict_spec (issues : List QG.Issue)
    (inv : ∀ i ∈ issues, i.severity = "warning" ∨ i.severity = "error") :
    (QG.verdict issues = .FAILED ↔ ∃ i ∈ issues, i.severity = "error") ∧
    (QG.verdict issues = .PASSED_WITH_WARNINGS ↔
      (¬(∃ i ∈ issues, i.severity = "error") ∧
        ∃ i ∈ issues, i.severity = "warning")) ∧
    (QG.verdict issues = .PASSED ↔
      (¬(∃ i ∈ issues, i.severity = "error") ∧
        ¬(∃ i ∈ issues, i.severity = "warning"))) ∧
    (QG.finalExit issues ≠ 0 ↔ ∃ i ∈ issues, i.severity = "error") := by
  cases issues with
  | nil =>
      refine ⟨?_, ?_, ?_, ?_⟩ <;> simp [QG.verdict, QG.passed, QG.finalExit]
  | cons i0 rest =>
      by_cases hp : QG.passed (i0 :: rest) = true
      · have hne : ¬ ∃ i ∈ i0 :: rest, i.severity = "error" := by
          intro hE
          rw [(qg_passed_iff_error _).mpr hE] at hp
          exact Bool.false_ne_true hp
        have hv : QG.verdict (i0 :: rest) = .PASSED_WITH_WARNINGS := by
          simp [QG.verdict, hp]
        have hw : ∃ i ∈ i0 :: rest, i.severity = "warning" := by
          rcases inv i0 (by simp) with h0 | h0
          · exact ⟨i0, by simp, h0⟩
          · exact absurd ⟨i0, by simp, h0⟩ hne
        refine ⟨?_, ?_, ?_, ?_⟩
        · rw [hv]
          exact iff_of_false (by simp) hne
        · exact iff_of_true hv ⟨hne, hw⟩
        · rw [hv]
          exact iff_of_false (by simp) (fun hc => hc.2 hw)
        · exact iff_of_false (by simp [QG.finalExit, hp]) hne
      · have hpf : QG.passed (i0 :: rest) = false := by
          simpa using hp
        have hE : ∃ i ∈ i0 :: rest, i.severity = "error" :=
          (qg_passed_iff_error _).mp hpf
        have hv : QG.verdict (i0 :: rest) = .FAILED := by
          simp [QG.verdict, hpf]
        refine ⟨?_, ?_, ?_, ?_⟩
        · exact iff_of_true hv hE
        · rw [hv]
          exact iff_of_false (by simp) (fun hc => hc.1 hE)
        · rw [hv]
          exact iff_of_false (by simp) (fun hc => hc.1 hE)
        · exact iff_of_true (by simp [QG.finalExit, hpf]) hE

theorem dv_finalExit_iff (e w : Nat) : DV.finalExit e w false ≠ 0 ↔ 0 < e := by
  unfold DV.finalExit
  by_cases h : 0 < e
  · simp [h]
  · simp [h]

theorem rc_finalExit_iff (issues : List RC.Issue) :
    RC.finalExit issues ≠ 0 ↔ ∃ i ∈ issues, i.severity = "warning" := by
  have hc : (0 < issues.countP fun i => i.severity == "warning") ↔
      ∃ i ∈ issues, i.severity = "warning" := by
    simp [List.countP_pos_iff]
  unfold RC.finalExit
  split_ifs with h
  · exact iff_of_true one_ne_zero (hc.mp h)
  · exact iff_of_false (by simp) fun hE => h (hc.mpr hE)

theorem findClose_append (q : Char) (rest : List Char) :
    ∀ content : List Char, (∀ c ∈ content, c ≠ q ∧ c ≠ '\\') →
    RC.findClose q (content ++ q :: rest) = some (content.length + 1) := by
  intro content
  induction content with
  | nil =>
      intro _
      rw [List.nil_append, RC.findClose.eq_def]
      simp
  | cons c cs ih =>
      intro h
      have hc := h c (by simp)
      have h1 : (c == q) = false := by simp [hc.1]
      have h2 : (c == '\\') = false := by simp [hc.2]
      rw [List.cons_append, RC.findClose.eq_def]
      simp [h1, h2, ih fun d hd => h d (by simp [hd])]

theorem stripPassAux_skip (isQ : Char → Bool) :
    ∀ (pre l : List Char) (fuel : Nat),
    (∀ c ∈ pre, isQ c = false) → pre.length ≤ fuel →
    RC.stripPassAux isQ fuel (pre ++ l) =
      pre ++ RC.stripPassAux isQ (fuel - pre.length) l := by
  intro pre
  induction pre with
  | nil => intro l fuel _ _; simp
  | cons c cs ih =>
      intro l fuel h hf
      cases fuel with
      | zero => simp at hf
      | succ f =>
          have hc : isQ c = false := h c (by simp)
          simp only [List.cons_append, RC.stripPassAux, hc, Bool.false_eq_true,
            if_false, List.append_eq]
          rw [ih l f (fun d hd => h d (by simp [hd])) (by simpa using hf)]
          simp [Nat.succ_sub_succ]

theorem stripPassAux_noQ (isQ : Char → Bool) :
    ∀ (l : List Char) (fuel : Nat),
    (∀ c ∈ l, isQ c = false) → RC.stripPassAux isQ fuel l = l := by
  intro l
  induction l with
  | nil => intro fuel _; cases fuel <;> rfl
  | cons c cs ih =>
      intro fuel h
      cases fuel with
      | zero => rfl
      | succ f =>
          have hc : isQ c = false := h c (by simp)
          simp only [RC.stripPassAux, hc, Bool.false_eq_true, if_false]
          rw [ih f fun d hd => h d (by simp [hd])]

theorem stripPass_quotes_strLitLine (content : List Char)
    (h : ∀ c ∈ content, c ≠ '"' ∧ c ≠ '\\') :
    RC.stripPass RC.isQuoteCh (RC.strLitLine content) = "x = \"\";".toList := by
  unfold RC.stripPass RC.strLitLine
  have hlen : ("x = ".toList ++ '"' :: (content ++ ['"', ';'])).length
      = content.length + 7 := by simp
  rw [hlen]
  rw [stripPassAux_skip RC.isQuoteCh "x = ".toList ('"' :: (content ++ ['"', ';']))
    (content.length + 7) (by decide) (by simp)]
  have hrest : content.length + 7 - ("x = ".toList).length = content.length + 2 + 1 := by
    simp
  rw [hrest]
  have hstep : RC.stripPassAux RC.isQuoteCh (content.length + 2 + 1)
      ('"' :: (content ++ ['"', ';'])) =
      '"' :: '"' :: RC.stripPassAux RC.isQuoteCh (content.length + 2)
        ((content ++ ['"', ';']).drop (content.length + 1)) := by
    rw [RC.stripPassAux]
    rw [findClose_append '"' [';'] content h]
    rfl
  rw [hstep]
  have hdrop : (content ++ ['"', ';']).drop (content.length + 1) = [';'] := by
    rw [List.drop_append 1]
    rfl
  rw [hdrop]
  rw [stripPassAux_noQ RC.isQuoteCh [';'] (content.length + 2) (by decide)]
  decide

theorem stripLine_strLitLine (content : List Char)
    (h : ∀ c ∈ content, c ≠ '"' ∧ c ≠ '\\') :
    RC.stripLine (RC.strLitLine content) = "x = \"\";".toList := by
  unfold RC.stripLine
  rw [stripPass_quotes_strLitLine content h]
  decide

/-! ## Claims -/

/-- Claim C1, counterexample.  The review-checklist checker exits with
status 1 on a report whose only issue is warning-severity (here the
file-length warning for a 301-line file): no error-severity issue is
present, so under the claimed verdict policy no artifact is FAILED, yet
the process exit status is non-zero — refuting "with strict mode off, the
process exit status is non-zero if and only if some artifact's verdict is
FAILED ... for every checker instance". -/
theorem c1_counterexample :
    RC.fileLengthIssues 301 =
      [⟨"file-length", "warning", 1, "File has 301 lines (threshold: 300)"⟩] ∧
    RC.finalExit (RC.fileLengthIssues 301) = 1 :=
  ⟨by decide, by decide⟩

/-- Claim C1, amended.  For the quality-gate checker the verdict is FAILED
iff an error-severity issue was collected, PASSED_WITH_WARNINGS iff there
are no errors but at least one warning, PASSED iff there are neither, and
the exit status is non-zero iff the verdict is FAILED; the doc validator
(with `--fail-on-warnings` off) likewise exits non-zero iff error-level
issues exist; but the review-checklist checker exits non-zero iff at least
one warning-severity issue exists, regardless of error-severity issues. -/
theorem c1_theorem :
    (∀ (fp : String) (res : QG.ParseResult),
      (QG.verdict (QG.analyze_file fp res) = .FAILED ↔
        ∃ i ∈ QG.analyze_file fp res, i.severity = "error") ∧
      (QG.verdict (QG.analyze_file fp res) = .PASSED_WITH_WARNINGS ↔
        (¬(∃ i ∈ QG.analyze_file fp res, i.severity = "error") ∧
          ∃ i ∈ QG.analyze_file fp res, i.severity = "warning")) ∧
      (QG.verdict (QG.analyze_file fp res) = .PASSED ↔
        (¬(∃ i ∈ QG.analyze_file fp res, i.severity = "error") ∧
          ¬(∃ i ∈ QG.analyze_file fp res, i.severity = "warning"))) ∧
      (QG.finalExit (QG.analyze_file fp res) ≠ 0 ↔
        ∃ i ∈ QG.analyze_file fp res, i.severity = "error")) ∧
    (∀ e w : Nat, DV.finalExit e w false ≠ 0 ↔ 0 < e) ∧
    (∀ issues : List RC.Issue,
      RC.finalExit issues ≠ 0 ↔ ∃ i ∈ issues, i.severity = "warning") :=
  ⟨fun fp res => qg_verdict_spec _ (qg_severity_inventory fp res),
   dv_finalExit_iff, rc_finalExit_iff⟩

/-- Claim C2, counterexample.  For the import sequence stdlib(1),
local(2), stdlib(3), third-party(4), the claim's rule ("rank lower than
the highest rank already seen") flags lines 3 and 4, but the code
compares each import only with the *immediately preceding* one and emits
exactly one issue, at line 3 — the third-party import at line 4 (rank 1,
below the highest seen rank 2) is not flagged. -/
theorem c2_counterexample :
    (QG.checkImportOrganization "f"
      ⟨none, [],
        [.imp 1 ["os"], .impFrom 2 (some "util") 1, .imp 3 ["sys"],
          .imp 4 ["requests"]]⟩).map QG.Issue.line = [3] ∧
    QG.claimFlagLines (QG.importRecords
      [.imp 1 ["os"], .impFrom 2 (some "util") 1, .imp 3 ["sys"],
        .imp 4 ["requests"]]) = [3, 4] :=
  ⟨by decide, by decide⟩

/-- Claim C2, amended.  The import-ordering rule emits an issue exactly
for each import whose classification rank is lower than the rank of the
immediately preceding import (not the highest rank already seen); a
sequence already in stdlib, stdlib, third-party, local order yields zero
issues, and moving the third-party import before a stdlib import yields
exactly one issue, reported at the line of the stdlib import that now
follows it. -/
theorem c2_theorem :
    (∀ (fp : String) (m : QG.PyModule),
      (QG.checkImportOrganization fp m).map QG.Issue.line =
        QG.descentLines (QG.importRecords m.imports)) ∧
    QG.checkImportOrganization "f"
      ⟨none, [],
        [.imp 1 ["os"], .imp 2 ["sys"], .imp 3 ["requests"],
          .impFrom 4 (some "util") 1]⟩ = [] ∧
    (QG.checkImportOrganization "f"
      ⟨none, [],
        [.imp 1 ["requests"], .imp 2 ["os"], .imp 3 ["sys"],
          .impFrom 4 (some "util") 1]⟩).map QG.Issue.line = [2] ∧
    (QG.checkImportOrganization "f"
      ⟨none, [],
        [.imp 1 ["os"], .imp 2 ["requests"], .imp 3 ["sys"],
          .impFrom 4 (some "util") 1]⟩).map QG.Issue.line = [3] := by
  refine ⟨?_, by decide, by decide, by decide⟩
  intro fp m
  simp only [QG.checkImportOrganization]
  cases h : QG.importRecords m.imports with
  | nil => simp [QG.descentLines]
  | cons r rest =>
      rw [if_neg (by simp)]
      have h0 : ¬ (QG.groupRank r.group < (-1 : Int)) := by
        have := groupRank_nonneg r.group
        omega
      simp only [QG.importScanAux, if_neg h0, List.nil_append]
      exact importScanAux_map_line fp rest r

/-- Claim C3, counterexample.  On a syntax-error artifact, quality-gate's
`analyze_file` returns after recording the single parse issue: no rule
runs against an empty model.  Had the rules run against the empty module,
as the claim states, the docstrings rule would have contributed its
module-docstring warning (second conjunct) — but the analysis output is
exactly the one parse issue (first conjunct). -/
theorem c3_counterexample :
    QG.analyze_file "f" (.syntaxFailure 3 "invalid syntax") =
      [⟨"f", 3, "parse", "Syntax error: invalid syntax", "error"⟩] ∧
    QG.checkDocstrings "f" ⟨none, [], []⟩ =
      [⟨"f", 1, "docstrings", "Module missing docstring", "warning"⟩] :=
  ⟨by decide, by decide⟩

/-- Claim C3, amended.  For the exact strategy (quality-gate), a parse
failure yields exactly one error-severity issue with rule id "parse"
carrying the line number and message, and the artifact's analysis stops —
no rule runs against an empty model.  For the approximate strategy (doc
validator), an unterminated fence is not reported under a "parse" rule:
it yields a single error-severity "code-block" issue at the fence's
opening line (the structural model still records the unclosed block). -/
theorem c3_theorem :
    (∀ (fp m : String) (l : Nat),
      QG.analyze_file fp (.syntaxFailure l m) =
        [⟨fp, l, "parse", "Syntax error: " ++ m, "error"⟩]) ∧
    (∀ cb : DV.CodeBlock, cb.unclosed = true →
      DV.validateCodeBlocks [cb] =
        [⟨cb.start, "error", "code-block",
          "Unclosed code block (missing closing ```)."⟩]) ∧
    DV.parseCodeBlocks ["```python", "x = 1"] = [⟨1, 2, "python", true⟩] := by
  refine ⟨fun fp m l => rfl, ?_, by decide⟩
  intro cb h
  simp [DV.validateCodeBlocks, h]

/-- Claim C3, witness for the amended theorem's hypothesis: a concrete
unclosed code block yields exactly the single "code-block" error issue. -/
theorem c3_witness :
    DV.validateCodeBlocks [⟨5, 9, "", true⟩] =
      [⟨5, "error", "code-block", "Unclosed code block (missing closing ```)."⟩] :=
  c3_theorem.2.1 ⟨5, 9, "", true⟩ rfl

/-- Claim C4, counterexample.  A class whose name starts with the private
prefix underscore and has no docstring *is* flagged by the
missing-documentation rule — the underscore exemption in quality-gate
applies only to functions, so the claim fails for private classes. -/
theorem c4_counterexample :
    QG.checkDocstrings "f" ⟨some "doc", [.cls ⟨"_Hidden", 3, none⟩], []⟩ =
      [⟨"f", 3, "docstrings", "Class '_Hidden' missing docstring", "warning"⟩] := by
  decide

/-- Claim C4, amended.  For every *function* whose name starts with the
private-prefix underscore, the missing-documentation and
missing-type-annotation rules emit no issue, except `__init__`, which is
always checked by both; private *classes* are not exempt: a leading
underscore class with a missing docstring is still flagged. -/
theorem c4_theorem :
    (∀ (fp : String) (f : QG.FunctionDef),
      pyStartsWith f.name "_" = true → f.name ≠ "__init__" →
      QG.typeHintIssuesFor fp f = [] ∧
        QG.docstringIssuesFor fp (.func f) = []) ∧
    (∀ (fp : String) (f : QG.FunctionDef) (a : QG.Arg),
      f.name = "__init__" → a ∈ f.args.args → a.arg ≠ "self" →
      a.arg ≠ "cls" → a.ann = none →
      (⟨fp, f.lineno, "type-hints",
        "Parameter '" ++ a.arg ++ "' in '" ++ f.name ++ "' missing type hint",
        "error"⟩ : QG.Issue) ∈ QG.typeHintIssuesFor fp f) ∧
    (∀ (fp : String) (f : QG.FunctionDef),
      f.name = "__init__" → f.docstring = none →
      QG.docstringIssuesFor fp (.func f) =
        [⟨fp, f.lineno, "docstrings",
          "Function '" ++ f.name ++ "' missing docstring", "warning"⟩]) ∧
    (∀ (fp : String) (c : QG.ClassDef),
      pyStartsWith c.name "_" = true → c.docstring = none →
      QG.docstringIssuesFor fp (.cls c) =
        [⟨fp, c.lineno, "docstrings",
          "Class '" ++ c.name ++ "' missing docstring", "warning"⟩]) := by
  refine ⟨?_, ?_, ?_, ?_⟩
  · intro fp f h1 h2
    have hb : (f.name == "__init__") = false := by simp [h2]
    constructor
    · simp [QG.typeHintIssuesFor, h1, hb]
    · simp [QG.docstringIssuesFor, h1, hb]
  · intro fp f a hn ha h1 h2 h3
    unfold QG.typeHintIssuesFor
    rw [if_neg (by simp [hn])]
    apply List.mem_append_left
    apply List.mem_map.mpr
    refine ⟨a, List.mem_filter.mpr ⟨ha, ?_⟩, rfl⟩
    simp [h1, h2, h3]
  · intro fp f hn hd
    simp [QG.docstringIssuesFor, hn, hd, QG.docMissing]
  · intro fp c _ hd
    simp [QG.docstringIssuesFor, hd, QG.docMissing]

/-- Claim C4, witness for the amended theorem's hypotheses: `__init__`
with no docstring is checked and flagged by the docstrings rule. -/
theorem c4_witness :
    QG.docstringIssuesFor "f"
      (.func ⟨"__init__", 7, none, ⟨[], [], none, [], none⟩, none, none⟩) =
      [⟨"f", 7, "docstrings", "Function '__init__' missing docstring",
        "warning"⟩] :=
  c4_theorem.2.2.1 "f"
    ⟨"__init__", 7, none, ⟨[], [], none, [], none⟩, none, none⟩ rfl rfl

/-- Claim C5, counterexample.  The marker-comment rule is applied to the
*raw* line, not the stripped line: on `const s = "TODO: x";` it emits an
issue although the marker occurs only inside a string literal (first
conjunct), while the stripped form of the same line contains no marker
(second conjunct) — so it is not the case that string literals are
stripped before every regex rule is applied. -/
theorem c5_counterexample :
    RC.todoIssuesLine 1 "const s = \"TODO: x\";" =
      [⟨"todo-fixme", "info", 1, "Found TODO comment"⟩] ∧
    RC.markerTags (RC.stripLine "const s = \"TODO: x\";".toList) = [] :=
  ⟨by decide, by decide⟩

/-- Claim C5, amended.  The debug-residue rule is applied to a stripped
copy of the line (string literals, template spans, then single-line
comments removed): a string literal containing `// not a real comment`
does not suppress analysis of the remainder of its line (the trailing
`console.log` is still detected), and a debug-call token occurring only
inside a double-quoted string literal never triggers the rule; the
marker-comment (TODO/FIXME) rule, however, is applied to the raw line, so
markers inside string literals still trigger it. -/
theorem c5_theorem :
    RC.consoleLogFires false
      "const s = \"// not a real comment\"; console.log(x);".toList = true ∧
    (∀ content : List Char, (∀ c ∈ content, c ≠ '"' ∧ c ≠ '\\') →
      RC.consoleLogFires false (RC.strLitLine content) = false) ∧
    RC.todoIssuesLine 1 "const s = \"TODO: x\";" =
      [⟨"todo-fixme", "info", 1, "Found TODO comment"⟩] := by
  refine ⟨by decide, ?_, by decide⟩
  intro content h
  unfold RC.consoleLogFires
  split_ifs with h1 h2
  · rfl
  · rfl
  · rw [stripLine_strLitLine content h]
    decide

/-- Claim C5, witness for the amended theorem's hypothesis: a line whose
only `console.log` occurs inside a string literal never fires the
debug-residue rule. -/
theorem c5_witness :
    RC.consoleLogFires false (RC.strLitLine "console.log(secret)".toList)
      = false :=
  c5_theorem.2.1 "console.log(secret)".toList (by decide)

/-- Claim C6 (confirmed).  For any document model, a heading text `T`
occurring among the headings and an internal link whose target is
`slug(T)` (lower-case, strip non-word/non-space/non-hyphen, collapse
whitespace runs to hyphens): the link validator emits no broken-link
issue for that link. -/
theorem c6_theorem (headings anchors : List (List Char)) (line : Nat)
    (T : List Char) (hT : T ∈ headings) :
    DV.validateInternalLinks headings anchors
      [⟨line, '#' :: DV.slugify T⟩] = [] := by
  unfold DV.validateInternalLinks DV.linkIssue
  simp only [List.flatMap_cons, List.flatMap_nil, List.append_nil]
  rw [if_pos (by simp [List.isPrefixOf])]
  simp only [List.drop_succ_cons, List.drop_zero]
  rw [map_lowerCh_slugify]
  rw [if_pos (List.mem_append_left _ (List.mem_map.mpr ⟨T, hT, rfl⟩))]

/-- Claim C6, witness: the heading `My Heading` slugifies to `my-heading`
and the link `#my-heading` is not flagged. -/
theorem c6_witness :
    DV.validateInternalLinks ["My Heading".toList] []
      [⟨3, "#my-heading".toList⟩] = [] :=
  c6_theorem ["My Heading".toList] [] 3 "My Heading".toList (by decide)

/-- Claim C7 (confirmed).  Size-threshold boundaries: a function spanning
exactly 50 lines triggers no function-length issue and one spanning 51
lines triggers exactly one (quality-gate, threshold 50; review-checklist
long-function, threshold 50), and a file of exactly 300 lines triggers no
file-length issue while 301 lines triggers exactly one (review-checklist,
threshold 300). -/
theorem c7_theorem :
    (∀ (fp : String) (f : QG.FunctionDef) (s : Nat),
      QG.functionLengthIssuesFor fp
        { f with lineno := s, end_lineno := some (s + 49) } = [] ∧
      (QG.functionLengthIssuesFor fp
        { f with lineno := s, end_lineno := some (s + 50) }).length = 1) ∧
    (∀ (name : String) (t : Nat),
      RC.longFunctionIssues [(name, t, t + 49)] = [] ∧
      (RC.longFunctionIssues [(name, t, t + 50)]).length = 1) ∧
    RC.fileLengthIssues 300 = [] ∧
    (RC.fileLengthIssues 301).length = 1 := by
  refine ⟨?_, ?_, by decide, by decide⟩
  · intro fp f s
    constructor
    · simp [QG.functionLengthIssuesFor, QG.MAX_FUNCTION_LINES,
        Nat.add_sub_cancel_left]
    · simp [QG.functionLengthIssuesFor, QG.MAX_FUNCTION_LINES,
        Nat.add_sub_cancel_left]
  · intro name t
    constructor
    · simp [RC.longFunctionIssues, Nat.add_sub_cancel_left]
    · simp [RC.longFunctionIssues, Nat.add_sub_cancel_left]

/-- Claim C8, counterexample.  In the doc validator a missing input path
exits with status 1, the same status produced by a FAILED (error-issue)
validation — the usage-error exit code is not distinct from the
rule-failure exit code, refuting the claim for this checker instance. -/
theorem c8_counterexample :
    DV.mainExitCode .missing false 0 0 = 1 ∧
    DV.mainExitCode .file false 1 0 = 1 :=
  ⟨rfl, rfl⟩

/-- Claim C8, amended.  Only quality-gate gives usage errors (missing
argument, no Python files found) the distinct exit code 2, different from
its rule-failure exit code 1; the doc validator and the review checklist
use exit code 1 both for usage errors (missing/invalid path, missing
argument) and for rule failures. -/
theorem c8_theorem :
    (∀ (issues : List QG.Issue) (n : Nat),
      QG.mainExitCode false n issues = 2 ∧
      QG.mainExitCode true 0 issues = 2) ∧
    (∀ (fp m : String) (l n : Nat),
      QG.mainExitCode true (n + 1)
        (QG.analyze_file fp (.syntaxFailure l m)) = 1) ∧
    (2 : Nat) ≠ 1 ∧
    (∀ (fow : Bool) (e w : Nat),
      DV.mainExitCode .missing fow e w = 1 ∧
      DV.mainExitCode (.dir false 3) fow e w = 1 ∧
      DV.mainExitCode .file false (e + 1) w = 1) ∧
    (∀ (issues : List RC.Issue) (b : Bool),
      RC.mainExitCode false b issues = 1 ∧
      RC.mainExitCode true false issues = 1) ∧
    RC.mainExitCode true true (RC.fileLengthIssues 301) = 1 := by
  refine ⟨?_, ?_, by decide, ?_, ?_, by decide⟩
  · intro issues n
    exact ⟨rfl, rfl⟩
  · intro fp m l n
    simp [QG.mainExitCode, QG.finalExit, QG.passed, QG.analyze_file]
  · intro fow e w
    refine ⟨rfl, rfl, ?_⟩
    simp [DV.mainExitCode, DV.finalExit]
  · intro issues b
    exact ⟨rfl, rfl⟩

/-- Claim C9 (confirmed).  For every import record the exact parser
produces: a relative import (`level > 0`) is classified "local" regardless
of its name; a non-relative `from`-import and a plain import are
classified "stdlib" exactly when the top-level component of the module
path is in the `STDLIB_TOP_LEVEL` allow-list and "third-party" otherwise;
a `from`-import without a module (`from . import x`) produces no record. -/
theorem c9_theorem (lineno level : Nat) (m nm : String) :
    (level > 0 →
      QG.importRecords [.impFrom lineno (some m) level] =
        [⟨lineno, "local", m⟩]) ∧
    (QG.importRecords [.impFrom lineno (some m) 0] =
      [⟨lineno,
        if QG.STDLIB_TOP_LEVEL.contains (QG.topOf m) then "stdlib"
        else "third-party", m⟩]) ∧
    (QG.importRecords [.imp lineno [nm]] =
      [⟨lineno,
        if QG.STDLIB_TOP_LEVEL.contains (QG.topOf nm) then "stdlib"
        else "third-party", nm⟩]) ∧
    QG.importRecords [.impFrom lineno none level] = [] := by
  refine ⟨?_, ?_, ?_, ?_⟩
  · intro h
    simp [QG.importRecords, QG.recordsOf, h]
  · simp [QG.importRecords, QG.recordsOf]
  · simp [QG.importRecords, QG.recordsOf]
  · simp [QG.importRecords, QG.recordsOf]

/-- Claim C9, witness: `from os import path` written as a relative import
(`level = 1`) is classified "local" although `os` is on the
standard-library allow-list. -/
theorem c9_witness :
    QG.importRecords [.impFrom 2 (some "os") 1] = [⟨2, "local", "os"⟩] :=
  (c9_theorem 2 1 "os" "x").1 (by decide)

/-- Claim C10 (confirmed).  The missing-type-annotation rule inspects only
the plain positional parameters (`args.args`): its output is invariant
under arbitrary changes to the positional-only, keyword-only, `*args` and
`**kwargs` parameter fields, and a function whose only unannotated
parameters sit in those fields yields no type-hint issue at all. -/
theorem c10_theorem :
    (∀ (fp : String) (f : QG.FunctionDef) (po ko : List QG.Arg)
        (va kw : Option QG.Arg),
      QG.typeHintIssuesFor fp
        { f with args := ⟨po, f.args.args, va, ko, kw⟩ } =
      QG.typeHintIssuesFor fp f) ∧
    QG.typeHintIssuesFor "f"
      ⟨"compute", 4, some 9,
        ⟨[⟨"p", none⟩], [], some ⟨"a", none⟩, [⟨"k", none⟩],
          some ⟨"kw", none⟩⟩,
        some "int", none⟩ = [] :=
  ⟨fun fp f po ko va kw => rfl, by decide⟩
